import Mathlib

/-!
Shallow embedding of the H2OFastTests core (src/include/H2OFastTests.hpp):
the assertion engine (`FailureTest`, `AsserterExpression` methods), the test
case classes (`Test`, `SkippedTest`), and the scenario runner
(`RegistryManager` with its observer channel and read-only accessors).

Modelling conventions:
- A C++ test procedure (`TestFunctor`, a `std::function<void(void)>`) is
  modelled by the effect it has on an abstract side-effect counter together
  with the exception outcome of invoking it (`ProcResult`): it either returns
  normally, throws a `GenericTestFailure` carrying the rendered `what()` text,
  throws some other `std::exception` carrying its `what()` description, or
  throws a value that is not introspectable (the `catch (...)` case).
- Wall-clock durations (`std::chrono::duration<double, std::milli>`) are
  modelled as rationals; the elapsed time measured around one procedure call
  is an oracle argument to `run`, since real time is outside the embedding.
  The `exec_time_ms_` member of `Test` is default-initialized in C++ (its
  constructors never write it), so construction takes the indeterminate
  initial value as an explicit argument `initExec`.
- Exception kinds in `expectException` are modelled as an enumerated identity
  (`Nat`); a C++ catch clause for kind `E` matches exactly kind `E` here.
- Observer handles (`std::shared_ptr<IRegistryObserver>` identities in a
  `std::set`) are modelled as naturals in a `Finset`; the messages an
  observer's `update` has received are external world state threaded through
  the runner.
-/

namespace H2OFastTests

/-- Test::Status from the source: PASSED, FAILED, ERROR (any non-assertion
exception), SKIPPED, NONE (not run yet). -/
inductive Status where
  | PASSED
  | FAILED
  | ERROR
  | SKIPPED
  | NONE
deriving DecidableEq, Repr

/-- Exception outcome of invoking the deferred procedure once: it returns,
throws a GenericTestFailure (assertion engine signal, carrying the rendered
what() text), throws another std::exception (carrying its what() description),
or throws a non-introspectable value (the catch-all case). -/
inductive ProcResult where
  | ok
  | testFailure (rendered : String)
  | stdException (what : String)
  | otherException
deriving DecidableEq, Repr

/-- The deferred zero-argument procedure: its side effect on an abstract
counter and its exception outcome. -/
structure TestFunctor where
  effect : Nat → Nat
  result : ProcResult

/-- Whether the object is a plain Test or the SkippedTest subclass (which
overrides run_private); virtual dispatch modelled as a tag. -/
inductive TestKind where
  | runnable
  | skipped
deriving DecidableEq, Repr

/-- State of one test case object: the members of class Test. -/
structure Test where
  kind : TestKind
  test_holder : TestFunctor
  label : String
  failure_reason : String
  skipped_reason : String
  error : String
  exec_time_ms : Rat
  status : Status

/-- Test::Test(label, test): stores the functor and label and sets
status_ = NONE; the string members are default-constructed empty; the
exec_time_ms_ member is left default-initialized (indeterminate), modelled by
the explicit argument initExec. -/
def Test.mkTest (label : String) (func : TestFunctor) (initExec : Rat) : Test :=
  ⟨TestKind.runnable, func, label, "", "", "", initExec, Status.NONE⟩

/-- SkippedTest::SkippedTest(label, func): same construction as Test but the
object dispatches to the skipping run_private. -/
def SkippedTest.mkSkipped (label : String) (func : TestFunctor) (initExec : Rat) : Test :=
  ⟨TestKind.skipped, func, label, "", "", "", initExec, Status.NONE⟩

/-- SkippedTest::SkippedTest(reason, label, func): additionally stores the
skip reason. -/
def SkippedTest.mkSkippedReason (reason label : String) (func : TestFunctor)
    (initExec : Rat) : Test :=
  { SkippedTest.mkSkipped label func initExec with skipped_reason := reason }

/-- Test::run_private / SkippedTest::run_private. For a plain Test: invoke
the stored procedure (applying its side effect to the counter) inside the
failure boundary — normal return sets PASSED; a GenericTestFailure sets
FAILED and failure_reason_ = failure.what(); another std::exception sets
ERROR and error_ = e.what(); catch (...) sets ERROR and
error_ = "Unkown error" — and in every branch writes the measured elapsed
time into exec_time_ms_. For a SkippedTest: only status_ = SKIPPED is
written; the procedure is not invoked and no other member changes. The
function is total: run never propagates the exception. -/
def Test.run_private (t : Test) (counter : Nat) (elapsed : Rat) : Test × Nat :=
  match t.kind with
  | TestKind.runnable =>
      let counterAfter := t.test_holder.effect counter
      let classified :=
        match t.test_holder.result with
        | ProcResult.ok => { t with status := Status.PASSED }
        | ProcResult.testFailure rendered =>
            { t with status := Status.FAILED, failure_reason := rendered }
        | ProcResult.stdException what =>
            { t with status := Status.ERROR, error := what }
        | ProcResult.otherException =>
            { t with status := Status.ERROR, error := "Unkown error" }
      ({ classified with exec_time_ms := elapsed }, counterAfter)
  | TestKind.skipped => ({ t with status := Status.SKIPPED }, counter)

/-- Test::run, the wrapper called by RegistryManager. -/
def Test.run (t : Test) (counter : Nat) (elapsed : Rat) : Test × Nat :=
  Test.run_private t counter elapsed

/-- FailureType from the source: classification carried by a TestFailure. -/
inductive FailureType where
  | equal
  | different
  | exception
deriving DecidableEq, Repr

/-- The TestFailure signal raised by the assertion engine: the message built
by FailureTest (with the optional line-info tag already folded in) and the
classification. The reached/expected values and their textual rendering only
feed the message and are not modelled separately. -/
structure TestFailureSignal where
  message : String
  failure_type : FailureType
deriving DecidableEq, Repr

/-- detail::FailureTest: if the condition is false, throw a TestFailure with
the given classification; otherwise return normally. -/
def FailureTest (condition : Bool) (failure_type : FailureType)
    (message : String) : Except TestFailureSignal Unit :=
  if condition then Except.ok () else Except.error ⟨message, failure_type⟩

/-- AsserterExpression::isEqualTo(double expected, double tolerance, ...):
diff = expected - expr_; FailureTest(abs(diff) <= abs(tolerance), ...,
FailureType::equal, ...). Doubles are modelled as rationals. -/
def isEqualTo_tolerance (expr_ expected tolerance : Rat)
    (message : String) : Except TestFailureSignal Unit :=
  let diff := expected - expr_
  FailureTest (decide (|diff| ≤ |tolerance|)) FailureType.equal message

/-- Outcome alphabet for the spec's version of the tolerance assertion. -/
inductive TolSpecOutcome where
  | ok
  | failed
  | logicError
deriving DecidableEq, Repr

/-- Modelled from the spec (for comparison with the source's
isEqualTo_tolerance, which is the authority): the spec's words require the
call to "reject when tolerance is negative as a logic error class" and
otherwise compare with the band |expected - actual| <= tolerance. -/
def isEqualTo_tolerance_spec (expr_ expected tolerance : Rat) : TolSpecOutcome :=
  if tolerance < 0 then TolSpecOutcome.logicError
  else if |expected - expr_| ≤ tolerance then TolSpecOutcome.ok
  else TolSpecOutcome.failed

/-- AsserterExpression::fail_exception<E>: FailureTest(false, ...,
FailureType::exception, message, lineInfo) — always raises a TestFailure
classified as an expected-exception failure. -/
def fail_exception (message : String) : Except TestFailureSignal Unit :=
  FailureTest false FailureType.exception message

/-- AsserterExpression::expectException<E>: run the captured procedure;
catch (ExpectedException) succeeds; catch (...) falls through; no exception
falls through; falling through calls fail_exception. The procedure's
exception outcome is `raised` (the kind it throws, if any); kinds are an
enumerated identity. -/
def expectException (expectedKind : Nat) (raised : Option Nat)
    (message : String) : Except TestFailureSignal Unit :=
  match raised with
  | some k => if k = expectedKind then Except.ok () else fail_exception message
  | none => fail_exception message

/-- The mutable members of RegistryManager: the has-run flag, the duration
accumulator, the four outcome buckets (std::vector of references into the
registry's test list, modelled as indices in push_back order), and the
observer set inherited from IRegistryObservable. -/
structure RegistryManager where
  run_ : Bool
  exec_time_ms_accumulator : Rat
  tests_passed : List Nat
  tests_failed : List Nat
  tests_skipped : List Nat
  tests_with_error : List Nat
  list_observers : Finset Nat

/-- RegistryManager::RegistryManager(feeder): run_(false) and a zero duration
accumulator; the bucket vectors and the observer set default-construct
empty. The feeder only touches the global registry map, which is modelled
separately as the scenario's test list. -/
def RegistryManager.init : RegistryManager :=
  ⟨false, 0, [], [], [], [], ∅⟩

/-- IRegistryObservable::addObserver: insert into the identity-keyed set. -/
def RegistryManager.addObserver (m : RegistryManager) (o : Nat) : RegistryManager :=
  { m with list_observers := insert o m.list_observers }

/-- IRegistryObservable::removeObserver: erase from the identity-keyed set. -/
def RegistryManager.removeObserver (m : RegistryManager) (o : Nat) : RegistryManager :=
  { m with list_observers := m.list_observers.erase o }

/-- RegistryManager::add_test(label, func): append a freshly constructed Test
to the scenario's registry entry (push_back, preserving call order). -/
def add_test (tests : List Test) (label : String) (func : TestFunctor)
    (initExec : Rat) : List Test :=
  tests ++ [Test.mkTest label func initExec]

/-- RegistryManager::skip_test(reason, label, func): append a freshly
constructed SkippedTest to the scenario's registry entry. -/
def skip_test (tests : List Test) (reason label : String) (func : TestFunctor)
    (initExec : Rat) : List Test :=
  tests ++ [SkippedTest.mkSkippedReason reason label func initExec]

/-- External world state threaded through a run: the abstract side-effect
counter the procedures act on, and, for each observer handle, the sequence of
case indices its update method has been called with, in arrival order. -/
structure World where
  counter : Nat
  received : Nat → List Nat

/-- IRegistryObservable::notify(infos): call update(infos) on every handle in
the current observer set; the view passed identifies the just-finished case
(its index). -/
def notify (obs : Finset Nat) (w : World) (i : Nat) : World :=
  { w with received := fun o => if o ∈ obs then w.received o ++ [i] else w.received o }

/-- The switch statement at the end of each run_tests iteration: file the
case's reference into the bucket matching its post-run status; the default
branch (NONE) files nothing. -/
def fileStatus (m : RegistryManager) (s : Status) (i : Nat) : RegistryManager :=
  match s with
  | Status.PASSED => { m with tests_passed := m.tests_passed ++ [i] }
  | Status.FAILED => { m with tests_failed := m.tests_failed ++ [i] }
  | Status.SKIPPED => { m with tests_skipped := m.tests_skipped ++ [i] }
  | Status.ERROR => { m with tests_with_error := m.tests_with_error ++ [i] }
  | Status.NONE => m

/-- Result of run_tests: the mutated registry entry, the manager, and the
external world. -/
structure RunResult where
  tests : List Test
  mgr : RegistryManager
  world : World

/-- The loop body of RegistryManager::run_tests, iterating the registry's
sequence from index i0: run the test (the measured elapsed time for index i
is the oracle durs i), add the test's post-run exec time to the accumulator,
notify the observers with the just-finished case, then file the case by its
post-run status. -/
def run_tests_loop (durs : Nat → Rat) :
    Nat → List Test → RegistryManager → World → RunResult
  | _, [], m, w => ⟨[], m, w⟩
  | i0, t :: ts, m, w =>
      let tc := Test.run t w.counter (durs i0)
      let m1 := { m with exec_time_ms_accumulator :=
          m.exec_time_ms_accumulator + tc.1.exec_time_ms }
      let w1 := notify m.list_observers { w with counter := tc.2 } i0
      let m2 := fileStatus m1 tc.1.status i0
      let r := run_tests_loop durs (i0 + 1) ts m2 w1
      ⟨tc.1 :: r.tests, r.mgr, r.world⟩

/-- RegistryManager::run_tests: iterate all registered tests of the scenario
in registration order, then set run_ = true. Nothing is cleared first: the
buckets and the accumulator keep whatever a previous run left in them. -/
def run_tests (durs : Nat → Rat) (tests : List Test) (m : RegistryManager)
    (w : World) : RunResult :=
  let r := run_tests_loop durs 0 tests m w
  ⟨r.tests, { r.mgr with run_ := true }, r.world⟩

/-- RegistryManager::getPassedCount: gated by run_. -/
def RegistryManager.getPassedCount (m : RegistryManager) : Nat :=
  if m.run_ then m.tests_passed.length else 0

/-- RegistryManager::getPassedTests: returns the bucket vector, not gated. -/
def RegistryManager.getPassedTests (m : RegistryManager) : List Nat :=
  m.tests_passed

/-- RegistryManager::getFailedCount: gated by run_. -/
def RegistryManager.getFailedCount (m : RegistryManager) : Nat :=
  if m.run_ then m.tests_failed.length else 0

/-- RegistryManager::getFailedTests: returns the bucket vector, not gated. -/
def RegistryManager.getFailedTests (m : RegistryManager) : List Nat :=
  m.tests_failed

/-- RegistryManager::getSkippedCount: gated by run_. -/
def RegistryManager.getSkippedCount (m : RegistryManager) : Nat :=
  if m.run_ then m.tests_skipped.length else 0

/-- RegistryManager::getSkippedTests: returns the bucket vector, not gated. -/
def RegistryManager.getSkippedTests (m : RegistryManager) : List Nat :=
  m.tests_skipped

/-- RegistryManager::getWithErrorCount: gated by run_. -/
def RegistryManager.getWithErrorCount (m : RegistryManager) : Nat :=
  if m.run_ then m.tests_with_error.length else 0

/-- RegistryManager::getWithErrorTests: returns the bucket vector, not
gated. -/
def RegistryManager.getWithErrorTests (m : RegistryManager) : List Nat :=
  m.tests_with_error

/-- RegistryManager::getAllTestsCount: gated by run_. -/
def getAllTestsCount (m : RegistryManager) (tests : List Test) : Nat :=
  if m.run_ then tests.length else 0

/-- RegistryManager::getAllTests: returns the registry entry itself, not
gated by run_. -/
def getAllTests (tests : List Test) : List Test :=
  tests

/-- RegistryManager::getAllTestsExecTimeMs: gated by run_. -/
def RegistryManager.getAllTestsExecTimeMs (m : RegistryManager) : Rat :=
  if m.run_ then m.exec_time_ms_accumulator else 0

/-- The status a test object ends up with after run: SKIPPED for a
SkippedTest, and the failure-boundary classification of the procedure's
exception outcome for a plain Test. Determined by the object's kind and
stored functor only. -/
def postStatus (t : Test) : Status :=
  match t.kind with
  | TestKind.skipped => Status.SKIPPED
  | TestKind.runnable =>
      match t.test_holder.result with
      | ProcResult.ok => Status.PASSED
      | ProcResult.testFailure _ => Status.FAILED
      | ProcResult.stdException _ => Status.ERROR
      | ProcResult.otherException => Status.ERROR

/-- What one iteration adds to the duration accumulator: the measured elapsed
time for a plain Test, and the (unchanged pre-run) exec_time_ms_ value for a
SkippedTest, whose run never writes the member. -/
def contrib (t : Test) (d : Rat) : Rat :=
  match t.kind with
  | TestKind.runnable => d
  | TestKind.skipped => t.exec_time_ms

/-- Indices (counting from i0) of the tests whose post-run status is s, in
list order. -/
def statusIdx (s : Status) : Nat → List Test → List Nat
  | _, [] => []
  | i0, t :: ts =>
      (if postStatus t = s then [i0] else []) ++ statusIdx s (i0 + 1) ts

/-- Total added to the duration accumulator by one run over the given tests,
with per-index elapsed-time oracle durs. -/
def runTotal (durs : Nat → Rat) : Nat → List Test → Rat
  | _, [] => 0
  | i0, t :: ts => contrib t (durs i0) + runTotal durs (i0 + 1) ts

/-- The registry entry after one run over the given tests (the counter does
not influence any stored test field). -/
def runList (durs : Nat → Rat) : Nat → List Test → List Test
  | _, [] => []
  | i0, t :: ts => (Test.run t 0 (durs i0)).1 :: runList durs (i0 + 1) ts

/-- How many times index i occurs across the four outcome buckets. -/
def countAcross (m : RegistryManager) (i : Nat) : Nat :=
  m.tests_passed.count i + m.tests_failed.count i
    + m.tests_skipped.count i + m.tests_with_error.count i

theorem run_fst_status (t : Test) (c : Nat) (d : Rat) :
    (Test.run t c d).1.status = postStatus t := by
  obtain ⟨k, ⟨eff, res⟩, lb, fr, sr, er, ex, st⟩ := t
  cases k <;> cases res <;> rfl

theorem run_fst_exec (t : Test) (c : Nat) (d : Rat) :
    (Test.run t c d).1.exec_time_ms = contrib t d := by
  obtain ⟨k, ⟨eff, res⟩, lb, fr, sr, er, ex, st⟩ := t
  cases k <;> cases res <;> rfl

theorem run_fst_kind (t : Test) (c : Nat) (d : Rat) :
    (Test.run t c d).1.kind = t.kind := by
  obtain ⟨k, ⟨eff, res⟩, lb, fr, sr, er, ex, st⟩ := t
  cases k <;> cases res <;> rfl

theorem run_fst_holder (t : Test) (c : Nat) (d : Rat) :
    (Test.run t c d).1.test_holder = t.test_holder := by
  obtain ⟨k, ⟨eff, res⟩, lb, fr, sr, er, ex, st⟩ := t
  cases k <;> cases res <;> rfl

theorem run_fst_counter_irrel (t : Test) (c : Nat) (d : Rat) :
    (Test.run t c d).1 = (Test.run t 0 d).1 := by
  obtain ⟨k, ⟨eff, res⟩, lb, fr, sr, er, ex, st⟩ := t
  cases k <;> cases res <;> rfl

theorem postStatus_run (t : Test) (c : Nat) (d : Rat) :
    postStatus (Test.run t c d).1 = postStatus t := by
  obtain ⟨k, ⟨eff, res⟩, lb, fr, sr, er, ex, st⟩ := t
  cases k <;> cases res <;> rfl

theorem contrib_run (t : Test) (c : Nat) (d d' : Rat) :
    contrib (Test.run t c d).1 d' = contrib t d' := by
  obtain ⟨k, ⟨eff, res⟩, lb, fr, sr, er, ex, st⟩ := t
  cases k <;> cases res <;> rfl

theorem postStatus_ne_none (t : Test) : postStatus t ≠ Status.NONE := by
  obtain ⟨k, ⟨eff, res⟩, lb, fr, sr, er, ex, st⟩ := t
  cases k <;> cases res <;> simp [postStatus]

theorem run_tests_loop_mgr (durs : Nat → Rat) (ts : List Test) :
    ∀ (i0 : Nat) (m : RegistryManager) (w : World),
      (run_tests_loop durs i0 ts m w).mgr =
        { m with
          exec_time_ms_accumulator :=
            m.exec_time_ms_accumulator + runTotal durs i0 ts,
          tests_passed := m.tests_passed ++ statusIdx Status.PASSED i0 ts,
          tests_failed := m.tests_failed ++ statusIdx Status.FAILED i0 ts,
          tests_skipped := m.tests_skipped ++ statusIdx Status.SKIPPED i0 ts,
          tests_with_error :=
            m.tests_with_error ++ statusIdx Status.ERROR i0 ts } := by
  induction ts with
  | nil => intro i0 m w; simp [run_tests_loop, runTotal, statusIdx]
  | cons t ts ih =>
      intro i0 m w
      obtain ⟨k, ⟨eff, res⟩, lb, fr, sr, er, ex, st⟩ := t
      cases k <;> cases res <;>
        simp [run_tests_loop, Test.run, Test.run_private, fileStatus, ih,
          statusIdx, postStatus, runTotal, contrib, add_assoc,
          List.append_assoc]

theorem fileStatus_observers (m : RegistryManager) (s : Status) (i : Nat) :
    (fileStatus m s i).list_observers = m.list_observers := by
  cases s <;> rfl

theorem run_tests_loop_received (durs : Nat → Rat) (ts : List Test) :
    ∀ (i0 : Nat) (m : RegistryManager) (w : World) (o : Nat),
      (run_tests_loop durs i0 ts m w).world.received o =
        w.received o ++
          (if o ∈ m.list_observers then List.range' i0 ts.length else []) := by
  induction ts with
  | nil => intro i0 m w o; simp [run_tests_loop]
  | cons t ts ih =>
      intro i0 m w o
      simp only [run_tests_loop]
      rw [ih]
      simp only [fileStatus_observers, notify, List.length_cons,
        List.range'_succ]
      by_cases h : o ∈ m.list_observers <;> simp [h]

theorem run_tests_loop_tests (durs : Nat → Rat) (ts : List Test) :
    ∀ (i0 : Nat) (m : RegistryManager) (w : World),
      (run_tests_loop durs i0 ts m w).tests = runList durs i0 ts := by
  induction ts with
  | nil => intro i0 m w; rfl
  | cons t ts ih =>
      intro i0 m w
      simp only [run_tests_loop, runList]
      rw [ih, run_fst_counter_irrel]

theorem statusIdx_runList (durs : Nat → Rat) (ts : List Test) :
    ∀ (s : Status) (j i0 : Nat),
      statusIdx s j (runList durs i0 ts) = statusIdx s j ts := by
  induction ts with
  | nil => intro s j i0; rfl
  | cons t ts ih =>
      intro s j i0
      simp only [runList, statusIdx, postStatus_run, ih]

theorem runTotal_runList (durs durs' : Nat → Rat) (ts : List Test) :
    ∀ (j i0 : Nat),
      runTotal durs' j (runList durs i0 ts) = runTotal durs' j ts := by
  induction ts with
  | nil => intro j i0; rfl
  | cons t ts ih =>
      intro j i0
      simp only [runList, runTotal, contrib_run, ih]

theorem statusIdx_length_sum (ts : List Test) :
    ∀ (i0 : Nat),
      (statusIdx Status.PASSED i0 ts).length
        + (statusIdx Status.FAILED i0 ts).length
        + (statusIdx Status.SKIPPED i0 ts).length
        + (statusIdx Status.ERROR i0 ts).length = ts.length := by
  induction ts with
  | nil => intro i0; rfl
  | cons t ts ih =>
      intro i0
      have h := ih (i0 + 1)
      obtain ⟨k, ⟨eff, res⟩, lb, fr, sr, er, ex, st⟩ := t
      cases k <;> cases res <;>
        (simp [statusIdx, postStatus, List.length_append]
         omega)

theorem statusIdx_count (ts : List Test) :
    ∀ (i0 j : Nat),
      (statusIdx Status.PASSED i0 ts).count j
        + (statusIdx Status.FAILED i0 ts).count j
        + (statusIdx Status.SKIPPED i0 ts).count j
        + (statusIdx Status.ERROR i0 ts).count j
        = if j ∈ List.range' i0 ts.length then 1 else 0 := by
  induction ts with
  | nil => intro i0 j; rfl
  | cons t ts ih =>
      intro i0 j
      have h := ih (i0 + 1) j
      obtain ⟨k, ⟨eff, res⟩, lb, fr, sr, er, ex, st⟩ := t
      cases k <;> cases res <;>
        (simp only [statusIdx, postStatus, List.length_cons] at h ⊢
         simp [List.count_append, List.count_cons, List.count_nil,
           List.mem_range'_1, beq_iff_eq] at h ⊢
         split_ifs at h ⊢ <;> omega)

/-- C1 counterexample: the claim states that when the raised value is not
introspectable the message is the fixed string "unknown error"; at the
concrete runnable test whose procedure throws a non-introspectable value the
code sets the outcome to ERROR but stores the fixed string "Unkown error",
which differs from "unknown error". -/
theorem run_unknown_error_string_cex :
    (Test.run (Test.mkTest "boom" ⟨fun n => n, ProcResult.otherException⟩ 0) 0 1).1.status
        = Status.ERROR
    ∧ (Test.run (Test.mkTest "boom" ⟨fun n => n, ProcResult.otherException⟩ 0) 0 1).1.error
        = "Unkown error"
    ∧ (Test.run (Test.mkTest "boom" ⟨fun n => n, ProcResult.otherException⟩ 0) 0 1).1.error
        ≠ "unknown error" := by
  refine ⟨rfl, rfl, ?_⟩
  decide

/-- C1 (amended): for every test case whose procedure is invoked by run()
(a runnable Test): normal return gives PASSED; a TestFailure from the
assertion engine gives FAILED with the failure's rendered text as message; a
std::exception gives ERROR with that exception's description as message; a
non-introspectable raised value gives ERROR with the fixed string
"Unkown error" (sic, the code's literal). run is total, so it never
propagates the exception. -/
theorem run_outcome_classification (t : Test) (c : Nat) (d : Rat)
    (h : t.kind = TestKind.runnable) :
    (t.test_holder.result = ProcResult.ok →
        (Test.run t c d).1.status = Status.PASSED)
    ∧ (∀ r, t.test_holder.result = ProcResult.testFailure r →
        (Test.run t c d).1.status = Status.FAILED
          ∧ (Test.run t c d).1.failure_reason = r)
    ∧ (∀ s, t.test_holder.result = ProcResult.stdException s →
        (Test.run t c d).1.status = Status.ERROR
          ∧ (Test.run t c d).1.error = s)
    ∧ (t.test_holder.result = ProcResult.otherException →
        (Test.run t c d).1.status = Status.ERROR
          ∧ (Test.run t c d).1.error = "Unkown error") := by
  refine ⟨?_, fun r hres => ?_, fun s hres => ?_, ?_⟩
  · intro hres
    simp [Test.run, Test.run_private, h, hres]
  · refine ⟨?_, ?_⟩ <;> simp [Test.run, Test.run_private, h, hres]
  · refine ⟨?_, ?_⟩ <;> simp [Test.run, Test.run_private, h, hres]
  · intro hres
    refine ⟨?_, ?_⟩ <;> simp [Test.run, Test.run_private, h, hres]

/-- C1 witness: the classification theorem applied to a concrete runnable
test whose procedure throws a std::exception with description "boom". -/
theorem run_outcome_classification_witness :
    (Test.run (Test.mkTest "w" ⟨fun n => n, ProcResult.stdException "boom"⟩ 0) 0 1).1.status
        = Status.ERROR
    ∧ (Test.run (Test.mkTest "w" ⟨fun n => n, ProcResult.stdException "boom"⟩ 0) 0 1).1.error
        = "boom" :=
  (run_outcome_classification
      (Test.mkTest "w" ⟨fun n => n, ProcResult.stdException "boom"⟩ 0) 0 1
      rfl).2.2.1 "boom" rfl

/-- C2: after a single run() from a fresh manager, the four outcome buckets
partition exactly the registered cases: the counts sum to the number of
registered cases, and each registered index appears in exactly one bucket
(and unregistered indices in none). -/
theorem buckets_partition_registered (ts : List Test) (durs : Nat → Rat)
    (w : World) :
    ((run_tests durs ts RegistryManager.init w).mgr.getPassedCount
        + (run_tests durs ts RegistryManager.init w).mgr.getFailedCount
        + (run_tests durs ts RegistryManager.init w).mgr.getWithErrorCount
        + (run_tests durs ts RegistryManager.init w).mgr.getSkippedCount
        = ts.length)
    ∧ (∀ i, countAcross (run_tests durs ts RegistryManager.init w).mgr i
        = if i < ts.length then 1 else 0) := by
  constructor
  · have h := statusIdx_length_sum ts 0
    simp [run_tests, run_tests_loop_mgr, RegistryManager.getPassedCount,
      RegistryManager.getFailedCount, RegistryManager.getSkippedCount,
      RegistryManager.getWithErrorCount, RegistryManager.init]
    omega
  · intro i
    have h := statusIdx_count ts 0 i
    simp [List.mem_range'_1] at h
    simp [run_tests, run_tests_loop_mgr, countAcross, RegistryManager.init]
    by_cases hi : i < ts.length <;> simp [hi] at h ⊢ <;> omega

/-- A one-test registration used by the pre-run accessor counterexample. -/
def preRunExample : List Test :=
  add_test [] "t1" ⟨fun n => n, ProcResult.ok⟩ 0

/-- C3 counterexample: before any run (run_ is false on a fresh manager),
the all-tests list accessor is not gated and returns the registered
sequence: with one registered case it returns a one-element list, not an
empty sequence as the claim states. -/
theorem pre_run_all_tests_list_cex :
    RegistryManager.init.run_ = false
    ∧ (getAllTests preRunExample).length = 1
    ∧ getAllTests preRunExample ≠ [] := by
  refine ⟨rfl, rfl, ?_⟩
  exact List.cons_ne_nil _ _

/-- C3 (amended): before the runner has completed run(), every
count-returning accessor (the four bucket counts, the all-tests count) and
the total-duration accessor return zero, and the four bucket-list accessors
return empty sequences, regardless of how many cases are registered; the
all-tests list accessor, however, is not gated by the completion flag and
returns the full registered sequence. -/
theorem pre_run_accessors_amended (ts : List Test) :
    RegistryManager.init.getPassedCount = 0
    ∧ RegistryManager.init.getFailedCount = 0
    ∧ RegistryManager.init.getSkippedCount = 0
    ∧ RegistryManager.init.getWithErrorCount = 0
    ∧ getAllTestsCount RegistryManager.init ts = 0
    ∧ RegistryManager.init.getAllTestsExecTimeMs = 0
    ∧ RegistryManager.init.getPassedTests = []
    ∧ RegistryManager.init.getFailedTests = []
    ∧ RegistryManager.init.getSkippedTests = []
    ∧ RegistryManager.init.getWithErrorTests = []
    ∧ getAllTests ts = ts :=
  ⟨rfl, rfl, rfl, rfl, rfl, rfl, rfl, rfl, rfl, rfl, rfl⟩

/-- A one-passing-test registration used by the re-run counterexample. -/
def rerunTests : List Test :=
  add_test [] "t" ⟨fun n => n, ProcResult.ok⟩ 0

/-- First run over rerunTests from a fresh manager. -/
def rerunFirst : RunResult :=
  run_tests (fun _ => 0) rerunTests RegistryManager.init ⟨0, fun _ => []⟩

/-- Second run over the same scenario, continuing from the first run's
state. -/
def rerunSecond : RunResult :=
  run_tests (fun _ => 0) rerunFirst.tests rerunFirst.mgr rerunFirst.world

/-- C4 counterexample: invoking run() a second time on a scenario with one
passing test leaves a passed count of 2, while a single fresh run produces
1 — the accumulated results sum across runs instead of reflecting only the
latest run. -/
theorem rerun_doubles_counts_cex :
    rerunSecond.mgr.getPassedCount = 2
    ∧ rerunFirst.mgr.getPassedCount = 1 :=
  ⟨rfl, rfl⟩

/-- C4 (amended): the code allows re-running, and the accumulated results
sum across runs: after a second run() each bucket list is the first run's
bucket repeated twice (so each count doubles), and the total duration is the
sum of both runs' duration totals, not what a single fresh run would
produce. -/
theorem rerun_reflects_sum_of_runs (ts : List Test) (durs1 durs2 : Nat → Rat)
    (w : World) :
    let r1 := run_tests durs1 ts RegistryManager.init w
    let r2 := run_tests durs2 r1.tests r1.mgr r1.world
    r2.mgr.getPassedCount = 2 * r1.mgr.getPassedCount
    ∧ r2.mgr.getFailedCount = 2 * r1.mgr.getFailedCount
    ∧ r2.mgr.getSkippedCount = 2 * r1.mgr.getSkippedCount
    ∧ r2.mgr.getWithErrorCount = 2 * r1.mgr.getWithErrorCount
    ∧ r2.mgr.tests_passed = r1.mgr.tests_passed ++ r1.mgr.tests_passed
    ∧ r2.mgr.tests_failed = r1.mgr.tests_failed ++ r1.mgr.tests_failed
    ∧ r2.mgr.tests_skipped = r1.mgr.tests_skipped ++ r1.mgr.tests_skipped
    ∧ r2.mgr.tests_with_error
        = r1.mgr.tests_with_error ++ r1.mgr.tests_with_error
    ∧ r2.mgr.getAllTestsExecTimeMs
        = runTotal durs1 0 ts + runTotal durs2 0 ts := by
  intro r1 r2
  simp only [r1, r2, run_tests, run_tests_loop_mgr, run_tests_loop_tests,
    statusIdx_runList, runTotal_runList, RegistryManager.init,
    RegistryManager.getPassedCount, RegistryManager.getFailedCount,
    RegistryManager.getSkippedCount, RegistryManager.getWithErrorCount,
    RegistryManager.getAllTestsExecTimeMs]
  simp [List.length_append, two_mul, add_assoc]

/-- C5: the claim that a SkippedTestCase reports a zero duration is a code
bug: exec_time_ms_ is default-initialized (never written by any Test
constructor) and SkippedTest::run_private writes only status_, so the
reported duration is the indeterminate initial value. At a skipped test
whose leftover initial value is 1: run() leaves the side-effect counter at
its initial value 7 (the procedure with effect n+1 is never invoked), sets
the outcome to SKIPPED, and reports duration 1, not zero. -/
theorem skipped_run_stale_duration :
    (Test.run (SkippedTest.mkSkippedReason "later" "s"
        ⟨fun n => n + 1, ProcResult.ok⟩ 1) 7 5).2 = 7
    ∧ (Test.run (SkippedTest.mkSkippedReason "later" "s"
        ⟨fun n => n + 1, ProcResult.ok⟩ 1) 7 5).1.status = Status.SKIPPED
    ∧ (Test.run (SkippedTest.mkSkippedReason "later" "s"
        ⟨fun n => n + 1, ProcResult.ok⟩ 1) 7 5).1.exec_time_ms = 1
    ∧ (Test.run (SkippedTest.mkSkippedReason "later" "s"
        ⟨fun n => n + 1, ProcResult.ok⟩ 1) 7 5).1.exec_time_ms ≠ 0 := by
  refine ⟨rfl, rfl, rfl, ?_⟩
  decide

theorem isEqualTo_tolerance_eq (x e tol : Rat) (msg : String) :
    isEqualTo_tolerance x e tol msg =
      if |e - x| ≤ |tol| then Except.ok ()
      else Except.error ⟨msg, FailureType.equal⟩ := by
  by_cases hle : |e - x| ≤ |tol| <;>
    simp [isEqualTo_tolerance, FailureTest, hle]

/-- C6 counterexample: with actual 4, expected 3 and negative tolerance -2,
the code performs the comparison (|3 - 4| = 1 <= |-2| = 2) and succeeds — it
neither rejects the call as a logic error (the spec-modelled version does)
nor fails, contradicting the claim that a negative tolerance is rejected
rather than compared. -/
theorem negative_tolerance_not_rejected_cex :
    isEqualTo_tolerance 4 3 (-2) "m" = Except.ok ()
    ∧ isEqualTo_tolerance_spec 4 3 (-2) = TolSpecOutcome.logicError
    ∧ ¬(|(3 : Rat) - 4| ≤ (-2 : Rat)) := by
  refine ⟨?_, ?_, ?_⟩
  · rw [isEqualTo_tolerance_eq]
    norm_num
  · rw [isEqualTo_tolerance_spec]
    norm_num
  · norm_num

/-- C6 (amended): the tolerance-band assertion folds the tolerance through
absolute value instead of rejecting negative values: it succeeds iff
|expected - actual| <= |tolerance| and otherwise raises a TestFailure
classified as an equality failure. -/
theorem isEqualTo_tolerance_amended (x e tol : Rat) (msg : String) :
    isEqualTo_tolerance x e tol msg =
      if |e - x| ≤ |tol| then Except.ok ()
      else Except.error ⟨msg, FailureType.equal⟩ :=
  isEqualTo_tolerance_eq x e tol msg

/-- C7: expectException succeeds iff the captured procedure raises exactly
the expected exception kind; any other kind, or no exception at all, makes
it raise a TestFailure classified as an expected-exception failure. -/
theorem expectException_characterization (E : Nat) (p : Option Nat)
    (msg : String) :
    expectException E p msg =
      if p = some E then Except.ok ()
      else Except.error ⟨msg, FailureType.exception⟩ := by
  cases p with
  | none => simp [expectException, fail_exception, FailureTest]
  | some k =>
      by_cases hk : k = E <;>
        simp [expectException, fail_exception, FailureTest, hk]

/-- C8: over one run of a scenario, every attached observer's update is
called exactly once per registered case — skipped cases included — and the
case views arrive in execution order, which is registration order (indices
0, 1, ..., n-1); a handle that is not attached receives nothing. -/
theorem observer_one_notification_per_case (ts : List Test)
    (durs : Nat → Rat) (obs : Finset Nat) (c : Nat) (o : Nat) :
    (run_tests durs ts { RegistryManager.init with list_observers := obs }
        ⟨c, fun _ => []⟩).world.received o
      = if o ∈ obs then List.range ts.length else [] := by
  have h := run_tests_loop_received durs ts 0
    { RegistryManager.init with list_observers := obs } ⟨c, fun _ => []⟩ o
  simp only [run_tests] at h ⊢
  rw [h, List.range_eq_range']
  simp

/-- C9: attaching an observer handle and then detaching the same handle
before running leaves it outside the observer set, so the subsequent run
delivers zero notifications to it. -/
theorem attach_detach_zero_notifications (ts : List Test)
    (durs : Nat → Rat) (obs : Finset Nat) (c : Nat) (o : Nat) :
    (run_tests durs ts
        ((({ RegistryManager.init with
            list_observers := obs }).addObserver o).removeObserver o)
        ⟨c, fun _ => []⟩).world.received o = [] := by
  have h := run_tests_loop_received durs ts 0
    ((({ RegistryManager.init with
        list_observers := obs }).addObserver o).removeObserver o)
    ⟨c, fun _ => []⟩ o
  simp only [run_tests] at h ⊢
  rw [h]
  simp [RegistryManager.addObserver, RegistryManager.removeObserver,
    Finset.not_mem_erase]

/-- C10: at every intermediate point of the run loop — after any number k of
processed cases, hence in particular inside any observer callback — the
completion flag is still unset, so all count accessors, the all-tests count
and the total-duration accessor still return zero; the aggregates only
become visible once the loop has finished and run_ is set. -/
theorem mid_run_accessors_zero (ts : List Test) (durs : Nat → Rat)
    (obs : Finset Nat) (w : World) (k : Nat) :
    (run_tests_loop durs 0 (ts.take k)
        { RegistryManager.init with list_observers := obs } w).mgr.run_ = false
    ∧ (run_tests_loop durs 0 (ts.take k)
        { RegistryManager.init with list_observers := obs } w).mgr.getPassedCount = 0
    ∧ (run_tests_loop durs 0 (ts.take k)
        { RegistryManager.init with list_observers := obs } w).mgr.getFailedCount = 0
    ∧ (run_tests_loop durs 0 (ts.take k)
        { RegistryManager.init with list_observers := obs } w).mgr.getSkippedCount = 0
    ∧ (run_tests_loop durs 0 (ts.take k)
        { RegistryManager.init with list_observers := obs } w).mgr.getWithErrorCount = 0
    ∧ getAllTestsCount (run_tests_loop durs 0 (ts.take k)
        { RegistryManager.init with list_observers := obs } w).mgr ts = 0
    ∧ (run_tests_loop durs 0 (ts.take k)
        { RegistryManager.init with list_observers := obs } w).mgr.getAllTestsExecTimeMs = 0
    ∧ (run_tests durs ts
        { RegistryManager.init with list_observers := obs } w).mgr.run_ = true := by
  simp [run_tests, run_tests_loop_mgr, RegistryManager.init,
    RegistryManager.getPassedCount, RegistryManager.getFailedCount,
    RegistryManager.getSkippedCount, RegistryManager.getWithErrorCount,
    getAllTestsCount, RegistryManager.getAllTestsExecTimeMs]

end H2OFastTests
